import Mathlib

/-!
# Verification of the Sunflower Ultravox transcription gateway

Shallow embedding of `app.py` from the `worker-vllm` repository: a small
FastAPI proxy that forwards uploaded audio (base64-encoded) to an
OpenAI-compatible chat-completion backend and relays the streamed text
increments, plus pass-through model-catalog and health endpoints.
-/

namespace Sunflower

/-! ## Base64 (model of Python's `base64.b64encode` / `base64.b64decode`,
RFC 4648 standard alphabet with `=` padding, as used by
`encode_audio_bytes_to_base64` in `app.py`). -/

/-- The standard base64 alphabet, index 0 to 63. -/
def base64Alphabet : List Char :=
  ['A', 'B', 'C', 'D', 'E', 'F', 'G', 'H', 'I', 'J', 'K', 'L', 'M',
   'N', 'O', 'P', 'Q', 'R', 'S', 'T', 'U', 'V', 'W', 'X', 'Y', 'Z',
   'a', 'b', 'c', 'd', 'e', 'f', 'g', 'h', 'i', 'j', 'k', 'l', 'm',
   'n', 'o', 'p', 'q', 'r', 's', 't', 'u', 'v', 'w', 'x', 'y', 'z',
   '0', '1', '2', '3', '4', '5', '6', '7', '8', '9', '+', '/']

/-- Character encoding a 6-bit group. -/
def sixbitChar (n : Nat) : Char := base64Alphabet.getD n 'A'

/-- Inverse lookup in the base64 alphabet. -/
def decodeChar (c : Char) : Option Nat :=
  let i := base64Alphabet.indexOf c
  if i < 64 then some i else none

/-- Encode a byte list (values < 256) three bytes at a time into base64
characters, with `=` padding for a 1- or 2-byte tail. -/
def encodeGroups : List Nat → List Char
  | b1 :: b2 :: b3 :: rest =>
      sixbitChar (b1 / 4) :: sixbitChar (b1 % 4 * 16 + b2 / 16) ::
      sixbitChar (b2 % 16 * 4 + b3 / 64) :: sixbitChar (b3 % 64) ::
      encodeGroups rest
  | [b1, b2] =>
      [sixbitChar (b1 / 4), sixbitChar (b1 % 4 * 16 + b2 / 16),
       sixbitChar (b2 % 16 * 4), '=']
  | [b1] =>
      [sixbitChar (b1 / 4), sixbitChar (b1 % 4 * 16), '=', '=']
  | [] => []

/-- Decode base64 characters four at a time, honouring `=` padding. -/
def decodeGroups : List Char → Option (List Nat)
  | [] => some []
  | c1 :: c2 :: c3 :: c4 :: rest =>
      (decodeChar c1).bind fun a =>
      (decodeChar c2).bind fun b =>
      if c3 = '=' then
        if c4 = '=' ∧ rest = [] ∧ b % 16 = 0 then
          some [a * 4 + b / 16]
        else none
      else
        (decodeChar c3).bind fun c =>
        if c4 = '=' then
          if rest = [] ∧ c % 4 = 0 then
            some [a * 4 + b / 16, b % 16 * 16 + c / 4]
          else none
        else
          (decodeChar c4).bind fun d =>
          (decodeGroups rest).map fun tail =>
            (a * 4 + b / 16) :: (b % 16 * 16 + c / 4) :: (c % 4 * 64 + d) :: tail
  | _ => none

/-- `base64.b64encode(bytes).decode("utf-8")` on a byte string. -/
def b64encode (bytes : List UInt8) : String :=
  String.mk (encodeGroups (bytes.map (·.toNat)))

/-- `base64.b64decode` on a string, strict about padding. -/
def b64decode (s : String) : Option (List UInt8) :=
  (decodeGroups s.data).map (·.map (fun n => UInt8.ofNat n))

theorem decodeChar_sixbitChar : ∀ n, n < 64 → decodeChar (sixbitChar n) = some n := by
  decide

theorem sixbitChar_ne_pad : ∀ n, n < 64 → sixbitChar n ≠ '=' := by
  decide

theorem decodeGroups_encodeGroups (l : List Nat) (h : ∀ b ∈ l, b < 256) :
    decodeGroups (encodeGroups l) = some l := by
  induction l using encodeGroups.induct with
  | case1 b1 b2 b3 rest ih =>
      have h1 : b1 < 256 := h b1 (by simp)
      have h2 : b2 < 256 := h b2 (by simp)
      have h3 : b3 < 256 := h b3 (by simp)
      have ih' := ih (fun b hb => h b (by simp [hb]))
      have e1 := decodeChar_sixbitChar (b1 / 4) (by omega)
      have e2 := decodeChar_sixbitChar (b1 % 4 * 16 + b2 / 16) (by omega)
      have e3 := decodeChar_sixbitChar (b2 % 16 * 4 + b3 / 64) (by omega)
      have e4 := decodeChar_sixbitChar (b3 % 64) (by omega)
      have n3 := sixbitChar_ne_pad (b2 % 16 * 4 + b3 / 64) (by omega)
      have n4 := sixbitChar_ne_pad (b3 % 64) (by omega)
      simp only [encodeGroups, decodeGroups, e1, e2, e3, e4, Option.some_bind,
        if_neg n3, if_neg n4, ih', Option.map_some', Option.some.injEq,
        List.cons.injEq]
      refine ⟨by omega, by omega, by omega, trivial⟩
  | case2 b1 b2 =>
      have h1 : b1 < 256 := h b1 (by simp)
      have h2 : b2 < 256 := h b2 (by simp)
      have e1 := decodeChar_sixbitChar (b1 / 4) (by omega)
      have e2 := decodeChar_sixbitChar (b1 % 4 * 16 + b2 / 16) (by omega)
      have e3 := decodeChar_sixbitChar (b2 % 16 * 4) (by omega)
      have n3 := sixbitChar_ne_pad (b2 % 16 * 4) (by omega)
      simp only [encodeGroups, decodeGroups, e1, e2, e3, Option.some_bind,
        if_neg n3, if_true, true_and, and_true]
      rw [if_pos (by omega : b2 % 16 * 4 % 4 = 0)]
      simp only [Option.some.injEq, List.cons.injEq, and_true]
      exact ⟨by omega, by omega⟩
  | case3 b1 =>
      have h1 : b1 < 256 := h b1 (by simp)
      have e1 := decodeChar_sixbitChar (b1 / 4) (by omega)
      have e2 := decodeChar_sixbitChar (b1 % 4 * 16) (by omega)
      simp only [encodeGroups, decodeGroups, e1, e2, Option.some_bind,
        if_true, true_and, and_true]
      rw [if_pos (by omega : b1 % 4 * 16 % 16 = 0)]
      simp only [Option.some.injEq, List.cons.injEq, and_true]
      omega
  | case4 => rfl

theorem uint8_ofNat_toNat (x : UInt8) : UInt8.ofNat x.toNat = x := by
  simp [UInt8.ofNat, UInt8.toNat]

/-- Base64 decoding inverts base64 encoding on every byte string. -/
theorem b64decode_b64encode (bytes : List UInt8) :
    b64decode (b64encode bytes) = some bytes := by
  unfold b64decode b64encode
  rw [decodeGroups_encodeGroups (bytes.map (·.toNat))
        (by intro b hb; simp only [List.mem_map] at hb
            obtain ⟨x, _, rfl⟩ := hb; exact x.toNat_lt)]
  simp only [Option.map_some', Option.some.injEq, List.map_map]
  have hid : ((fun n => UInt8.ofNat n) ∘ fun x : UInt8 => x.toNat) = id := by
    funext x
    simp only [Function.comp_apply, id_eq, uint8_ofNat_toNat]
  rw [hid, List.map_id]

/-! ## JSON values (model of the Python objects produced by `response.json()`). -/

/-- A JSON value, as returned by `httpx.Response.json()`. -/
inductive Json where
  | null : Json
  | bool (b : Bool) : Json
  | num (n : Int) : Json
  | str (s : String) : Json
  | arr (xs : List Json) : Json
  | obj (fields : List (String × Json)) : Json

/-- Python `dict` lookup on a JSON object's fields (first match). -/
def lookupField : List (String × Json) → String → Option Json
  | [], _ => none
  | (k, v) :: rest, key => if k = key then some v else lookupField rest key

/-! ## Pydantic response models (`ModelInfo`, `ModelsResponse` in `app.py`). -/

/-- `class ModelInfo(BaseModel)`: id, object, created, owned_by. -/
structure ModelInfo where
  id : String
  object : String
  created : Int
  owned_by : String
deriving DecidableEq

/-- `class ModelsResponse(BaseModel)`: object, data. -/
structure ModelsResponse where
  object : String
  data : List ModelInfo
deriving DecidableEq

/-- Pydantic validation of one `ModelInfo` record from a JSON value. -/
def parseModelInfo (j : Json) : Option ModelInfo :=
  match j with
  | .obj fs =>
      match lookupField fs "id", lookupField fs "object",
            lookupField fs "created", lookupField fs "owned_by" with
      | some (.str i), some (.str ob), some (.num cr), some (.str ow) =>
          some ⟨i, ob, cr, ow⟩
      | _, _, _, _ => none
  | _ => none

/-- Pydantic validation of a `ModelsResponse` from a JSON value. -/
def parseModelsResponse (j : Json) : Option ModelsResponse :=
  match j with
  | .obj fs =>
      match lookupField fs "object", lookupField fs "data" with
      | some (.str ob), some (.arr xs) =>
          (xs.mapM parseModelInfo).map fun data => ⟨ob, data⟩
      | _, _ => none
  | _ => none

/-! ## Backend interaction outcomes.

Each pass-through handler performs one `httpx` GET.  The observable outcome
is either an HTTP response (any status code, with a parsed JSON body) or a
raised `httpx.HTTPError` (connection failure, timeout, ...).  A plain
`client.get` does NOT raise on non-2xx statuses; only an explicit
`raise_for_status()` turns a non-2xx response into an `httpx.HTTPStatusError`
(a subclass of `httpx.HTTPError`). -/

/-- Outcome of an `httpx` GET against the backend. -/
inductive HttpOutcome where
  | response (status : Nat) (body : Json) : HttpOutcome
  | transportError (msg : String) : HttpOutcome

/-- `httpx.Response.is_success`: the statuses `raise_for_status` accepts. -/
def is2xx (status : Nat) : Bool := 200 ≤ status && status < 300

/-- Modelled from httpx: the `str(e)` of the `HTTPStatusError` raised by
`raise_for_status()` on a non-2xx status code. -/
def httpStatusErrorText (status : Nat) : String :=
  "HTTP status error " ++ toString status

/-- The detail-prefix used by both catalog endpoints in `app.py`. -/
def catalogErrPrefix : String := "Failed to query vLLM models endpoint: "

/-! ## `/health` (`health_check` in `app.py`). -/

/-- The JSON shapes `/health` can return. -/
inductive HealthResult where
  | healthy (vllm_status : Nat) : HealthResult
  | unhealthy (error : String) : HealthResult
deriving DecidableEq

/-- Whether a health result is the `{status: "unhealthy", error: ...}` shape. -/
def HealthResult.isUnhealthyShape : HealthResult → Bool
  | .unhealthy _ => true
  | .healthy _ => false

/-- `GET /health`: returns `{"status": "healthy", "vllm_status": code}` for any
HTTP response (no `raise_for_status` is called), and
`{"status": "unhealthy", "error": msg}` when `httpx.HTTPError` is raised. -/
def health_check : HttpOutcome → HealthResult
  | .response status _ => .healthy status
  | .transportError msg => .unhealthy msg

/-! ## `/models` (`get_available_models` in `app.py`). -/

/-- Result of the `/models` endpoint: a parsed `ModelsResponse`, an
`HTTPException(status_code=500, detail=...)`, or FastAPI's own response-model
validation failure when the body does not fit `ModelsResponse`. -/
inductive ModelsEndpointResult where
  | ok (mr : ModelsResponse) : ModelsEndpointResult
  | httpException (status : Nat) (detail : String) : ModelsEndpointResult
  | responseValidationFailure : ModelsEndpointResult
deriving DecidableEq

/-- `GET /models`: forwards `GET {VLLM_BASE_URL}/v1/models`, calls
`raise_for_status()`, returns the JSON body under `response_model=ModelsResponse`;
any `httpx.HTTPError` becomes `HTTPException(500, prefix + str(e))`. -/
def get_available_models (o : HttpOutcome) : ModelsEndpointResult :=
  match o with
  | .transportError msg => .httpException 500 (catalogErrPrefix ++ msg)
  | .response status body =>
      if is2xx status then
        match parseModelsResponse body with
        | some mr => .ok mr
        | none => .responseValidationFailure
      else .httpException 500 (catalogErrPrefix ++ httpStatusErrorText status)

/-! ## `/models/list` (`list_model_names` in `app.py`). -/

/-- The `{"models": [...], "count": n}` payload. -/
structure NamesPayload where
  models : List Json
  count : Nat

/-- Result of the `/models/list` endpoint.  `unhandledTypeError` models an
uncaught Python exception (`AttributeError`/`TypeError`/`KeyError`) escaping
the `except httpx.HTTPError` clause. -/
inductive NamesEndpointResult where
  | ok (p : NamesPayload) : NamesEndpointResult
  | httpException (status : Nat) (detail : String) : NamesEndpointResult
  | unhandledTypeError : NamesEndpointResult

/-- `[model["id"] for model in xs]`: `None` models a raised
`TypeError`/`KeyError` when an element is not a dict with an `"id"` key. -/
def extractIds : List Json → Option (List Json)
  | [] => some []
  | .obj fs :: rest =>
      match lookupField fs "id", extractIds rest with
      | some v, some vs => some (v :: vs)
      | _, _ => none
  | _ :: _ => none

/-- `data.get("data", [])` followed by the id comprehension: the body must be
a dict; a missing `"data"` key defaults to the empty list; a non-list
`"data"` value or a malformed element raises. -/
def collectModelIds (body : Json) : Option (List Json) :=
  match body with
  | .obj fs =>
      match lookupField fs "data" with
      | none => some []
      | some (.arr xs) => extractIds xs
      | some _ => none
  | _ => none

/-- `GET /models/list`: same backend call and `raise_for_status` as `/models`,
then reduces the body to `{"models": ids, "count": len(ids)}`. -/
def list_model_names (o : HttpOutcome) : NamesEndpointResult :=
  match o with
  | .transportError msg => .httpException 500 (catalogErrPrefix ++ msg)
  | .response status body =>
      if is2xx status then
        match collectModelIds body with
        | some ids => .ok ⟨ids, ids.length⟩
        | none => .unhandledTypeError
      else .httpException 500 (catalogErrPrefix ++ httpStatusErrorText status)

/-! ## The `/transcribe` pipeline
(`encode_audio_bytes_to_base64`, `transcribe_audio_streaming`,
`transcribe_audio` in `app.py`).

The sampling temperature is only ever relayed, never computed with, so it is
modelled as a rational number (`0.1` becomes `1/10`). -/

/-- `encode_audio_bytes_to_base64(audio_bytes)` in `app.py`. -/
def encode_audio_bytes_to_base64 (audio_bytes : List UInt8) : String :=
  b64encode audio_bytes

/-- One content part of a chat message: either `{"type": "text", ...}` or
`{"type": "input_audio", "input_audio": {"data": ..., "format": ...}}`. -/
inductive ContentPart where
  | text (t : String) : ContentPart
  | inputAudio (data : String) (fmt : String) : ContentPart
deriving DecidableEq

/-- One chat message: a role and an ordered list of content parts. -/
structure ChatMessage where
  role : String
  content : List ContentPart
deriving DecidableEq

/-- The arguments of `runpod_client.chat.completions.create(...)`. -/
structure ChatRequest where
  stream : Bool
  model : String
  temperature : ℚ
  messages : List ChatMessage
deriving DecidableEq

/-- The fixed system prompt in `transcribe_audio_streaming`. -/
def personaPrompt : String :=
  "You are Sunflower, a helpful assistant made by Sunbird AI who understands all Ugandan languages. You specialise in accurate translations, explanations, summaries and other language tasks."

/-- The chat-completion request built by `transcribe_audio_streaming`. -/
def transcribeRequest (modelName audio_b64 task : String) (temperature : ℚ) :
    ChatRequest :=
  { stream := true
    model := modelName
    temperature := temperature
    messages :=
      [ { role := "system", content := [.text personaPrompt] },
        { role := "user",
          content := [.text task, .inputAudio audio_b64 "wav"] } ] }

/-- `event.choices[0].delta.content` — the delta of one streamed choice. -/
structure Delta where
  content : Option String
deriving DecidableEq

/-- One choice of a streamed chat-completion chunk. -/
structure Choice where
  delta : Delta
deriving DecidableEq

/-- One streamed chat-completion event. -/
structure Event where
  choices : List Choice
deriving DecidableEq

/-- Python truthiness of `delta.content` (an optional string): `None` and the
empty string are falsy. -/
def pyTruthyStr : Option String → Bool
  | none => false
  | some s => !(s == "")

/-- The `for event in stream: if event.choices[0].delta.content: yield ...`
loop of `transcribe_audio_streaming`.  `none` models an `IndexError` raised
by `event.choices[0]` on an event with no choices. -/
def yieldedChunks : List Event → Option (List String)
  | [] => some []
  | e :: es =>
      match e.choices with
      | [] => none
      | c :: _ =>
          (yieldedChunks es).map fun rest =>
            if pyTruthyStr c.delta.content then c.delta.content.getD "" :: rest
            else rest

/-- `transcribe_audio_streaming(runpod_client, audio_b64, task, temperature)`:
builds the chat request, opens the stream against the backend (modelled as a
function from the request to the emitted event sequence) and yields the
truthy delta contents in order. -/
def transcribe_audio_streaming (backend : ChatRequest → List Event)
    (modelName audio_b64 task : String) (temperature : ℚ) :
    Option (List String) :=
  yieldedChunks (backend (transcribeRequest modelName audio_b64 task temperature))

/-- The multipart form of `POST /transcribe`: `audio_file` is declared
`File(...)` (required), `task` and `temperature` are `Form(default=...)`. -/
structure UploadForm where
  audio_file : Option (List UInt8)
  task : Option String
  temperature : Option ℚ

/-- Default task: `Form(default="Translate to English: ")`. -/
def defaultTask : String := "Translate to English: "

/-- Default temperature: `Form(default=0.1)`. -/
def defaultTemperature : ℚ := 1 / 10

/-- Response of `POST /transcribe`.  `validationError 422` models FastAPI
rejecting the request before the handler runs because the required
`audio_file` field is absent; `streaming` carries the `media_type` and the
fully relayed body (`none` when the relay crashed mid-stream). -/
inductive TranscribeResponse where
  | validationError (status : Nat) : TranscribeResponse
  | streaming (mediaType : String) (body : Option String) : TranscribeResponse

/-- Whether a transcribe response is a client (4xx) error. -/
def TranscribeResponse.isClientError : TranscribeResponse → Bool
  | .validationError s => 400 ≤ s && s < 500
  | .streaming _ _ => false

/-- `POST /transcribe` (`transcribe_audio` in `app.py`): reads the upload,
base64-encodes it and returns a `StreamingResponse` over
`transcribe_audio_streaming`.  The second component records every outbound
backend call the request caused. -/
def transcribe_audio (backend : ChatRequest → List Event) (modelName : String)
    (form : UploadForm) : TranscribeResponse × List ChatRequest :=
  match form.audio_file with
  | none => (.validationError 422, [])
  | some audio_bytes =>
      let audio_b64 := encode_audio_bytes_to_base64 audio_bytes
      let task := form.task.getD defaultTask
      let temperature := form.temperature.getD defaultTemperature
      (.streaming "text/plain"
         ((transcribe_audio_streaming backend modelName audio_b64 task
             temperature).map String.join),
       [transcribeRequest modelName audio_b64 task temperature])


/-! ## Shared concrete fixtures used by witnesses. -/

/-- A concrete streamed event with the given optional delta contents as its
choices. -/
def mkEvent (cs : List (Option String)) : Event := ⟨cs.map fun c => ⟨⟨c⟩⟩⟩

/-- A concrete backend emitting a fixed event sequence: a non-empty delta, an
absent delta, an empty delta, and another non-empty delta. -/
def sampleBackend : ChatRequest → List Event := fun _ =>
  [mkEvent [some "Hello"], mkEvent [none], mkEvent [some ""],
   mkEvent [some " world"]]

/-- A concrete upload form with audio bytes and omitted task/temperature. -/
def sampleForm : UploadForm := ⟨some [104, 105], none, none⟩

/-- A second, separately constructed form with the same field values. -/
def sampleForm2 : UploadForm := ⟨some [104, 105], none, none⟩

/-- A form with a zero-byte upload. -/
def emptyUploadForm : UploadForm := ⟨some [], none, none⟩

/-- A form whose required `audio_file` field is absent. -/
def missingAudioForm : UploadForm := ⟨none, some "Translate to Luganda: ", some (1 / 2)⟩

/-! ## Streaming relay: the body is the in-order concatenation of the
non-empty first-choice deltas (C1). -/

/-- Spec-side selector: the first choice's delta text of an event, kept only
when it is present and non-empty. -/
def nonemptyFirstDelta (e : Event) : Option String :=
  match e.choices.head? with
  | some c =>
      match c.delta.content with
      | some s => if s = "" then none else some s
      | none => none
  | none => none

theorem yieldedChunks_eq_filterMap (events : List Event)
    (h : ∀ e ∈ events, e.choices ≠ []) :
    yieldedChunks events = some (events.filterMap nonemptyFirstDelta) := by
  induction events with
  | nil => rfl
  | cons e es ih =>
      have he : e.choices ≠ [] := h e (by simp)
      have ih' := ih (fun x hx => h x (by simp [hx]))
      cases hc : e.choices with
      | nil => exact absurd hc he
      | cons c cs =>
          cases hcc : c.delta.content with
          | none =>
              simp [yieldedChunks, hc, ih', nonemptyFirstDelta, hcc, pyTruthyStr]
          | some str =>
              by_cases hs : str = ""
          -- an empty delta is skipped, a non-empty one is prepended verbatim
              · simp [yieldedChunks, hc, ih', nonemptyFirstDelta, hcc,
                  pyTruthyStr, hs]
              · simp [yieldedChunks, hc, ih', nonemptyFirstDelta, hcc,
                  pyTruthyStr, hs]

/-- C1: for every event sequence the backend emits for a `/transcribe`
request whose events all carry a first choice, the response body is exactly
the concatenation, in arrival order, of the first choice's delta text of
every event whose first-choice delta text is non-empty; empty or absent
increments are skipped and nothing is reordered, duplicated or buffered. -/
theorem transcribe_body_concat_of_nonempty_deltas
    (backend : ChatRequest → List Event) (modelName : String)
    (form : UploadForm) (bytes : List UInt8)
    (hA : form.audio_file = some bytes)
    (hC : ∀ e ∈ backend (transcribeRequest modelName
            (encode_audio_bytes_to_base64 bytes) (form.task.getD defaultTask)
            (form.temperature.getD defaultTemperature)), e.choices ≠ []) :
    (transcribe_audio backend modelName form).1 =
      .streaming "text/plain"
        (some (String.join ((backend (transcribeRequest modelName
            (encode_audio_bytes_to_base64 bytes) (form.task.getD defaultTask)
            (form.temperature.getD defaultTemperature))).filterMap
              nonemptyFirstDelta))) := by
  simp [transcribe_audio, hA, transcribe_audio_streaming,
    yieldedChunks_eq_filterMap _ hC]

/-- Witness for C1 at a concrete backend and form: the relayed body is
`"Hello world"`, skipping the absent and empty increments. -/
theorem transcribe_body_concat_witness :
    (transcribe_audio sampleBackend "m" sampleForm).1 =
      .streaming "text/plain"
        (some (String.join ((sampleBackend (transcribeRequest "m"
            (encode_audio_bytes_to_base64 [104, 105])
            (sampleForm.task.getD defaultTask)
            (sampleForm.temperature.getD defaultTemperature))).filterMap
              nonemptyFirstDelta))) :=
  transcribe_body_concat_of_nonempty_deltas sampleBackend "m" sampleForm
    [104, 105] rfl (by decide)

/-! ## Outbound request marshaling (C2). -/

/-- C2: for every `/transcribe` request with uploaded audio bytes, the single
outbound backend call is a streaming chat-completion request with exactly two
messages — a system message holding the fixed persona prompt as its only text
part, and a user message holding the task string followed by an
`input_audio` part whose data is the base64 encoding of the uploaded bytes
tagged `"wav"` — at the submitted temperature, with task defaulting to
`"Translate to English: "` and temperature defaulting to 0.1 when omitted. -/
theorem transcribe_outbound_request_shape
    (backend : ChatRequest → List Event) (modelName : String)
    (form : UploadForm) (bytes : List UInt8)
    (hA : form.audio_file = some bytes) :
    (transcribe_audio backend modelName form).2 =
      [{ stream := true
         model := modelName
         temperature := form.temperature.getD defaultTemperature
         messages :=
           [ { role := "system", content := [.text personaPrompt] },
             { role := "user",
               content := [.text (form.task.getD defaultTask),
                           .inputAudio (b64encode bytes) "wav"] } ] }] := by
  simp [transcribe_audio, hA, transcribeRequest, encode_audio_bytes_to_base64]

/-- Witness for C2: with task and temperature omitted, the outbound request
uses the defaults and carries the base64 `"aGk="` of the bytes `[104, 105]`. -/
theorem transcribe_outbound_request_shape_witness :
    (transcribe_audio sampleBackend "m" sampleForm).2 =
      [{ stream := true
         model := "m"
         temperature := defaultTemperature
         messages :=
           [ { role := "system", content := [.text personaPrompt] },
             { role := "user",
               content := [.text defaultTask,
                           .inputAudio (b64encode [104, 105]) "wav"] } ] }] :=
  transcribe_outbound_request_shape sampleBackend "m" sampleForm [104, 105] rfl

/-! ## Missing upload is rejected before any backend call (C3). -/

/-- C3: for every `/transcribe` POST whose multipart body is missing the
`audio_file` field, the gateway answers with a client (4xx) error — FastAPI's
422 for a missing required field — and performs no outbound backend call. -/
theorem missing_audio_rejected_no_backend_call
    (backend : ChatRequest → List Event) (modelName : String)
    (form : UploadForm) (h : form.audio_file = none) :
    (transcribe_audio backend modelName form).1 = .validationError 422 ∧
    (transcribe_audio backend modelName form).1.isClientError = true ∧
    (transcribe_audio backend modelName form).2 = [] := by
  refine ⟨?_, ?_, ?_⟩ <;>
    simp [transcribe_audio, h, TranscribeResponse.isClientError]

/-- Witness for C3 at a concrete form without an audio file. -/
theorem missing_audio_rejected_witness :
    (transcribe_audio sampleBackend "m" missingAudioForm).1 =
        .validationError 422 ∧
    (transcribe_audio sampleBackend "m" missingAudioForm).1.isClientError =
        true ∧
    (transcribe_audio sampleBackend "m" missingAudioForm).2 = [] :=
  missing_audio_rejected_no_backend_call sampleBackend "m" missingAudioForm rfl

/-! ## Idempotence against a fixed deterministic backend (C8). -/

/-- C8: two `/transcribe` requests with identical audio bytes, task and
temperature, evaluated against the same fixed backend (which maps equal
requests to equal event sequences), produce identical responses — in
particular equal concatenated bodies. -/
theorem transcribe_idempotent (backend : ChatRequest → List Event)
    (modelName : String) (f1 f2 : UploadForm)
    (hA : f1.audio_file = f2.audio_file) (hT : f1.task = f2.task)
    (hP : f1.temperature = f2.temperature) :
    transcribe_audio backend modelName f1 =
      transcribe_audio backend modelName f2 := by
  cases f1
  cases f2
  cases hA
  cases hT
  cases hP
  rfl

/-- Witness for C8: two separately constructed forms with the same field
values yield the same response. -/
theorem transcribe_idempotent_witness :
    transcribe_audio sampleBackend "m" sampleForm =
      transcribe_audio sampleBackend "m" sampleForm2 :=
  transcribe_idempotent sampleBackend "m" sampleForm sampleForm2 rfl rfl rfl

/-! ## The forwarded audio payload is a lossless round-trip (C10). -/

/-- C10: for every `/transcribe` request, the single outbound request carries
an `input_audio` data field whose base64 decoding recovers exactly the
uploaded bytes; a zero-byte upload is accepted and forwarded with an
empty-string payload. -/
theorem transcribe_audio_b64_lossless (backend : ChatRequest → List Event)
    (modelName : String) (form : UploadForm) (bytes : List UInt8)
    (hA : form.audio_file = some bytes) :
    ∃ d, (transcribe_audio backend modelName form).2 =
          [transcribeRequest modelName d (form.task.getD defaultTask)
             (form.temperature.getD defaultTemperature)] ∧
         b64decode d = some bytes ∧
         (bytes = [] → d = "") := by
  refine ⟨encode_audio_bytes_to_base64 bytes, ?_, ?_, ?_⟩
  · simp [transcribe_audio, hA]
  · exact b64decode_b64encode bytes
  · intro hb
    subst hb
    rfl

/-- Witness for C10 at a zero-byte upload: the outbound request is made with
the empty-string payload, which decodes back to the empty byte string. -/
theorem transcribe_audio_b64_lossless_witness :
    (transcribe_audio sampleBackend "m" emptyUploadForm).2 =
        [transcribeRequest "m" "" defaultTask defaultTemperature] ∧
    b64decode "" = some ([] : List UInt8) := by
  obtain ⟨d, h1, h2, h3⟩ :=
    transcribe_audio_b64_lossless sampleBackend "m" emptyUploadForm [] rfl
  have hd : d = "" := h3 rfl
  subst hd
  exact ⟨h1, h2⟩

/-! ## Health check (C4, C5).

`health_check` in `app.py` performs a plain `client.get` and never calls
`raise_for_status()`: an HTTP response with ANY status code — 2xx or not —
reaches the success branch, and only a raised `httpx.HTTPError` (connection
failure, timeout, ...) reaches the `except` branch. -/

/-- Counterexample to C4: a backend response with the non-2xx status 404 does
NOT produce the unhealthy shape — the handler returns
`{status: "healthy", vllm_status: 404}`. -/
theorem health_check_non2xx_still_healthy :
    health_check (.response 404 .null) = .healthy 404 ∧
    (health_check (.response 404 .null)).isUnhealthyShape = false :=
  ⟨rfl, rfl⟩

/-- C4 as amended: `/health` returns the healthy shape — with the remote
status code embedded — for every backend HTTP response, non-2xx included;
the unhealthy shape `{status: "unhealthy", error: msg}` is produced exactly
when the backend call raises a transport error. -/
theorem health_check_shape_by_outcome :
    (∀ status body, health_check (.response status body) = .healthy status) ∧
    (∀ msg, health_check (.transportError msg) = .unhealthy msg) :=
  ⟨fun _ _ => rfl, fun _ => rfl⟩

/-- C5: `/health` never propagates an exception and never raises an HTTP
error status: for every backend outcome its result is one of exactly the two
shapes `{status: "healthy", vllm_status: code}` and
`{status: "unhealthy", error: msg}`. -/
theorem health_check_total_two_shapes (o : HttpOutcome) :
    (∃ status, health_check o = .healthy status) ∨
    (∃ msg, health_check o = .unhealthy msg) := by
  cases o with
  | response status body => exact .inl ⟨status, rfl⟩
  | transportError msg => exact .inr ⟨msg, rfl⟩

/-! ## `/models` error contract (C6). -/

/-- A well-formed backend catalog body listing one model `"m1"`. -/
def sampleCatalogBody : Json :=
  .obj [("object", .str "list"),
        ("data", .arr [.obj [("id", .str "m1"), ("object", .str "model"),
                             ("created", .num 1700000000),
                             ("owned_by", .str "sunbird")]])]

/-- The `ModelsResponse` that `sampleCatalogBody` validates to. -/
def sampleMR : ModelsResponse :=
  ⟨"list", [⟨"m1", "model", 1700000000, "sunbird"⟩]⟩

/-- C6: `/models` returns the backend's JSON body validated against the
`ModelsResponse` shape on backend success, and answers
`HTTPException(500, detail)` — the detail carrying the underlying failure
message — on any network error and on any non-2xx backend status. -/
theorem models_endpoint_error_contract :
    (∀ status body mr, is2xx status = true →
        parseModelsResponse body = some mr →
        get_available_models (.response status body) = .ok mr) ∧
    (∀ msg, get_available_models (.transportError msg) =
        .httpException 500 (catalogErrPrefix ++ msg)) ∧
    (∀ status body, is2xx status = false →
        get_available_models (.response status body) =
          .httpException 500 (catalogErrPrefix ++ httpStatusErrorText status)) := by
  refine ⟨?_, ?_, ?_⟩
  · intro status body mr h2 hp
    simp [get_available_models, h2, hp]
  · intro msg
    rfl
  · intro status body h2
    simp [get_available_models, h2]

/-- Witness for C6: a 200 response with a valid catalog body is returned
parsed; a timeout and a 503 status each turn into a 500 `HTTPException`
carrying the failure message. -/
theorem models_endpoint_error_contract_witness :
    get_available_models (.response 200 sampleCatalogBody) = .ok sampleMR ∧
    get_available_models (.transportError "Read timed out") =
      .httpException 500 (catalogErrPrefix ++ "Read timed out") ∧
    get_available_models (.response 503 sampleCatalogBody) =
      .httpException 500 (catalogErrPrefix ++ httpStatusErrorText 503) :=
  ⟨models_endpoint_error_contract.1 200 sampleCatalogBody sampleMR rfl rfl,
   models_endpoint_error_contract.2.1 "Read timed out",
   models_endpoint_error_contract.2.2 503 sampleCatalogBody rfl⟩

/-! ## `/models/list` with a body lacking a `"data"` key (C9). -/

/-- C9: when the backend's 2xx catalog body is a JSON object without a
`"data"` key, `/models/list` does not error: `data.get("data", [])` defaults
to the empty list and the endpoint returns `{models: [], count: 0}`. -/
theorem names_empty_when_data_missing (status : Nat)
    (fields : List (String × Json)) (h2 : is2xx status = true)
    (hd : lookupField fields "data" = none) :
    list_model_names (.response status (.obj fields)) = .ok ⟨[], 0⟩ := by
  simp [list_model_names, h2, collectModelIds, hd]

/-- Witness for C9 at a concrete body `{"object": "list"}`. -/
theorem names_empty_when_data_missing_witness :
    list_model_names (.response 200 (.obj [("object", .str "list")])) =
      .ok ⟨[], 0⟩ :=
  names_empty_when_data_missing 200 [("object", .str "list")] rfl rfl

/-! ## `/models/list` is consistent with `/models` (C7). -/

theorem parseModelInfo_id (j : Json) (mi : ModelInfo)
    (h : parseModelInfo j = some mi) :
    ∃ fs, j = .obj fs ∧ lookupField fs "id" = some (.str mi.id) := by
  cases j with
  | obj fs =>
      refine ⟨fs, rfl, ?_⟩
      simp only [parseModelInfo] at h
      split at h
      · rename_i i ob cr ow hid hob hcr how
        cases h
        exact hid
      · cases h
  | null => simp [parseModelInfo] at h
  | bool b => simp [parseModelInfo] at h
  | num n => simp [parseModelInfo] at h
  | str str => simp [parseModelInfo] at h
  | arr xs => simp [parseModelInfo] at h

theorem extractIds_of_parsed (xs : List Json) (data : List ModelInfo)
    (h : xs.mapM parseModelInfo = some data) :
    extractIds xs = some (data.map fun mi => Json.str mi.id) := by
  induction xs generalizing data with
  | nil =>
      simp only [List.mapM_nil, pure, Option.some.injEq] at h
      subst h
      rfl
  | cons j js ih =>
      rw [List.mapM_cons] at h
      cases hj : parseModelInfo j with
      | none => rw [hj] at h; simp at h
      | some mi =>
          rw [hj] at h
          cases hjs : js.mapM parseModelInfo with
          | none => rw [hjs] at h; simp at h
          | some rest =>
              rw [hjs] at h
              simp only [Option.bind_eq_bind, Option.some_bind,
                Option.pure_def, Option.some.injEq] at h
              subst h
              obtain ⟨fs, rfl, hid⟩ := parseModelInfo_id j mi hj
              simp [extractIds, hid, ih rest hjs]

theorem parseModelsResponse_elim (body : Json) (mr : ModelsResponse)
    (h : parseModelsResponse body = some mr) :
    ∃ fs xs, body = .obj fs ∧ lookupField fs "data" = some (.arr xs) ∧
             xs.mapM parseModelInfo = some mr.data := by
  cases body with
  | obj fs =>
      simp only [parseModelsResponse] at h
      split at h
      · rename_i ob xs hob hdata
        cases hm : xs.mapM parseModelInfo with
        | none => rw [hm] at h; cases h
        | some data =>
            rw [hm] at h
            simp only [Option.map_some', Option.some.injEq] at h
            subst h
            exact ⟨fs, xs, rfl, hdata, hm⟩
      · cases h
  | null => simp [parseModelsResponse] at h
  | bool b => simp [parseModelsResponse] at h
  | num n => simp [parseModelsResponse] at h
  | str str => simp [parseModelsResponse] at h
  | arr xs => simp [parseModelsResponse] at h

theorem collectModelIds_of_parsed (body : Json) (mr : ModelsResponse)
    (h : parseModelsResponse body = some mr) :
    collectModelIds body = some (mr.data.map fun mi => Json.str mi.id) := by
  obtain ⟨fs, xs, rfl, hdata, hmapm⟩ := parseModelsResponse_elim body mr h
  simp [collectModelIds, hdata, extractIds_of_parsed xs mr.data hmapm]

/-- C7: whenever `/models/list` succeeds its `count` equals the length of its
`models` array; and for every backend catalog response that `/models` would
return as a validated `ModelsResponse`, every id in the `/models/list`
`models` array equals the id of some entry in that response's `data`. -/
theorem list_names_consistent_with_models :
    (∀ o p, list_model_names o = .ok p → p.count = p.models.length) ∧
    (∀ status body mr, is2xx status = true →
        parseModelsResponse body = some mr →
        get_available_models (.response status body) = .ok mr ∧
        ∃ p, list_model_names (.response status body) = .ok p ∧
             p.count = p.models.length ∧
             ∀ v ∈ p.models, ∃ mi ∈ mr.data, v = Json.str mi.id) := by
  constructor
  · intro o p h
    cases o with
    | transportError msg => simp [list_model_names] at h
    | response status body =>
        simp only [list_model_names] at h
        by_cases h2 : is2xx status = true
        · rw [if_pos h2] at h
          cases hc : collectModelIds body with
          | none => rw [hc] at h; cases h
          | some ids =>
              rw [hc] at h
              cases h
              rfl
        · rw [if_neg h2] at h
          cases h
  · intro status body mr h2 hp
    refine ⟨by simp [get_available_models, h2, hp],
            ⟨⟨mr.data.map fun mi => Json.str mi.id,
              (mr.data.map fun mi => Json.str mi.id).length⟩, ?_, rfl, ?_⟩⟩
    · simp [list_model_names, h2, collectModelIds_of_parsed body mr hp]
    · intro v hv
      simp only [List.mem_map] at hv
      obtain ⟨mi, hmi, rfl⟩ := hv
      exact ⟨mi, hmi, rfl⟩

/-- Witness for C7 at the concrete catalog body: the count matches, `/models`
returns the parsed catalog and every listed id appears in its data. -/
theorem list_names_consistent_witness :
    (⟨[Json.str "m1"], 1⟩ : NamesPayload).count = [Json.str "m1"].length ∧
    (get_available_models (.response 200 sampleCatalogBody) = .ok sampleMR ∧
     ∃ p, list_model_names (.response 200 sampleCatalogBody) = .ok p ∧
          p.count = p.models.length ∧
          ∀ v ∈ p.models, ∃ mi ∈ sampleMR.data, v = Json.str mi.id) :=
  ⟨list_names_consistent_with_models.1 (.response 200 sampleCatalogBody)
      ⟨[Json.str "m1"], 1⟩ rfl,
   list_names_consistent_with_models.2 200 sampleCatalogBody sampleMR rfl rfl⟩

end Sunflower
